import Mathlib

/-!
# Verification of the StalkR/openid repository

This file shallowly embeds the two packages of the repository:

* `openid20` — simplistic OpenID 2.0 support (`openid20/openid20.go`).
  The repository snapshot carries two revisions of this file: an earlier
  one with package-level functions operating on `*http.Request`, and a
  later one with an `Auth` struct whose helpers operate on `url.Values`.
  Both are embedded (the earlier revision's functions carry a `V1` suffix
  where the names collide).
* `openid` — OpenID Connect ID-token flow (the unnamed source file).
  The external go-oidc token verifier is an out-of-scope collaborator and
  is modelled as an oracle function carried by the `Auth` structure.

Machine integers do not occur; Go strings are modelled as Lean `String`
(the inputs of interest are ASCII, where Go's byte-based `len` and Lean's
character count agree).  `url.Values` (`map[string][]string` in request
order with `Get` returning the first value) is modelled as an association
list with first-match lookup.  Network calls (`http.PostForm`, the OIDC
verifier) are modelled by passing the response of the remote party as an
explicit input.
-/

/-- View of an `Except` value as a sum, to derive decidable equality. -/
def exceptToSum {ε α : Type _} : Except ε α → ε ⊕ α
  | .error e => .inl e
  | .ok x => .inr x

instance {ε α : Type _} [DecidableEq ε] [DecidableEq α] : DecidableEq (Except ε α) :=
  fun a b =>
    decidable_of_iff (exceptToSum a = exceptToSum b)
      (by cases a <;> cases b <;> simp [exceptToSum])

/-- Association-list model of Go `url.Values`: pairs in the order the
query string lists them. -/
abbrev Values := List (String × String)

namespace Values

/-- Go `url.Values.Get`: first value for the key, `""` when absent. -/
def get (v : Values) (k : String) : String :=
  match v.find? (fun p => p.1 == k) with
  | some p => p.2
  | none => ""

end Values

/-! ## String utilities

Character-list implementations of the Go `strings` helpers the code
uses (`strings.Split`, `strings.Cut`, `strings.Contains`). -/

/-- Go `strings.Split(s, sep)` for a one-character separator, on
character lists: splitting the empty string yields `[[]]`, a trailing
separator yields a final empty component. -/
def splitOnChar (c : Char) : List Char → List (List Char)
  | [] => [[]]
  | x :: xs =>
    let r := splitOnChar c xs
    if x = c then [] :: r
    else
      match r with
      | [] => [[x]]
      | y :: ys => (x :: y) :: ys

/-- `splitOnChar` lifted to strings. -/
def splitStr (c : Char) (s : String) : List String :=
  (splitOnChar c s.toList).map String.mk

/-- Go `strings.Cut(s, sep)` for a one-character separator, dropping the
separator: returns the part before the first occurrence and the part
after it (the whole string and `[]` when the separator is absent). -/
def cutList (c : Char) : List Char → List Char × List Char
  | [] => ([], [])
  | x :: xs =>
    if x = c then ([], xs)
    else
      let r := cutList c xs
      (x :: r.1, r.2)

/-- `cutList` lifted to strings. -/
def cutChar (c : Char) (s : String) : String × String :=
  let r := cutList c s.toList
  (String.mk r.1, String.mk r.2)

/-- ASCII lowercasing, character by character (Go `strings.ToLower` on
the scheme). -/
def lowerStr (s : String) : String :=
  String.mk (s.toList.map Char.toLower)

/-! ## URL model

A structural model of Go `net/url.URL` restricted to the components the
repository reads: `Scheme`, `Host`, `Path` and `RawQuery` (plus `Query()`
parsing).  Userinfo, port validation, percent-(un)escaping, `Opaque`,
`ForceQuery` and the error cases of `url.Parse` (invalid control
characters, invalid port, a leading `:`) lie outside the inputs the
claims exercise; where Go would populate `Opaque`, the model leaves
`path` empty just as Go leaves `Path` empty. -/

structure URL where
  scheme : String
  host : String
  path : String
  rawQuery : String
deriving DecidableEq, Repr

/-- Valid Go URL scheme: a letter followed by letters, digits, `+`, `-`
or `.` (`net/url.getScheme`). -/
def validScheme (s : String) : Bool :=
  match s.toList with
  | [] => false
  | c :: cs =>
    c.isAlpha && cs.all (fun x => x.isAlphanum || x = '+' || x = '-' || x = '.')

/-- Go `net/url.getScheme`: if the text before the first `:` is a valid
scheme, return it lowercased together with the rest; otherwise the whole
string is scheme-less. -/
def splitScheme (s : String) : String × String :=
  if s.toList.contains ':' then
    let r := cutChar ':' s
    if validScheme r.1 then (lowerStr r.1, r.2) else ("", s)
  else ("", s)

/-- Go `net/url.ParseQuery` (as invoked by `URL.Query()`), minus
percent-unescaping: components split on `&`, pairs containing `;` or
with an empty key are skipped, key and value cut at the first `=`. -/
def parseQuery (s : String) : Values :=
  if s = "" then []
  else
    (splitStr '&' s).foldr
      (fun pair acc =>
        if pair = "" then acc
        else if pair.toList.contains ';' then acc
        else
          let kv := cutChar '=' pair
          (kv.1, kv.2) :: acc)
      []

/-- Go `net/url.Parse` restricted as described above: strip the fragment,
take the scheme, cut the query at the first `?`, then either parse an
authority after `//` (host up to the first `/`, the rest is the path) or
treat the remainder as the path. -/
def parseURL (s : String) : URL :=
  let s1 := (cutChar '#' s).1
  let sr := splitScheme s1
  let scheme := sr.1
  let pq := cutChar '?' sr.2
  let restL := pq.1.toList
  let rawQuery := pq.2
  match restL with
  | '/' :: '/' :: t =>
    if scheme = "" && (match t with | '/' :: _ => true | _ => false) then
      -- a scheme-less `///…` is a rootless path, not an authority
      { scheme := scheme, host := "", path := String.mk restL, rawQuery := rawQuery }
    else
      { scheme := scheme, host := String.mk (t.takeWhile (fun x => x ≠ '/')),
        path := String.mk (t.dropWhile (fun x => x ≠ '/')), rawQuery := rawQuery }
  | '/' :: _ =>
    { scheme := scheme, host := "", path := String.mk restL, rawQuery := rawQuery }
  | _ =>
    if scheme ≠ "" then
      -- Go stores this as `Opaque` and leaves `Path` empty; the opaque
      -- text itself is never read by the code under verification
      { scheme := scheme, host := "", path := "", rawQuery := rawQuery }
    else
      { scheme := scheme, host := "", path := String.mk restL, rawQuery := rawQuery }

namespace URL

/-- Go `URL.Query()`. -/
def query (u : URL) : Values := parseQuery u.rawQuery

end URL

/-- Go `(&url.URL{Scheme: scheme, Host: host}).String()` with all other
fields zero: `scheme:` when the scheme is set, `//host` when the host is
set (host escaping is the identity on ordinary host names). -/
def schemeHostString (scheme host : String) : String :=
  (if scheme = "" then "" else scheme ++ ":") ++
  (if host = "" then "" else "//" ++ host)

/-- Go `r.URL.String()` for a server-side request URL (empty scheme and
host): the path followed by `?` and the raw query when present. -/
def requestURLString (path rawQuery : String) : String :=
  path ++ (if rawQuery = "" then "" else "?" ++ rawQuery)

namespace openid20

/-! ## Timestamp parsing (`time.Parse(time.RFC3339, nonce[:20])`)

A 20-character RFC 3339 timestamp is necessarily of the shape
`YYYY-MM-DDThh:mm:ssZ` (any numeric-offset form is longer and fails Go's
parse when truncated to 20 bytes).  Go validates the month, the day
against the month/leap-year, the hour, minute and second ranges.  The
resulting instant is modelled as Unix seconds (an `Int`); Go's extra
nanosecond precision does not affect the whole-second inputs the nonce
gate compares. -/

/-- Numeric value of a decimal digit character, if it is one. -/
def digit? (c : Char) : Option Nat :=
  if c.isDigit then some (c.toNat - 48) else none

/-- Two-digit decimal number. -/
def num2 (a b : Char) : Option Nat := do
  let x ← digit? a
  let y ← digit? b
  pure (10 * x + y)

/-- Go `isLeap`: proleptic Gregorian leap year. -/
def isLeap (y : Nat) : Bool :=
  y % 4 = 0 && (y % 100 ≠ 0 || y % 400 = 0)

/-- Days in a month, as Go's `daysIn` used by `time.Parse` range checks. -/
def daysInMonth (y m : Nat) : Nat :=
  if m = 2 then (if isLeap y then 29 else 28)
  else if m = 4 ∨ m = 6 ∨ m = 9 ∨ m = 11 then 30
  else 31

/-- Days since 1970-01-01 of a proleptic-Gregorian civil date
(the standard days-from-civil computation; all divisions act on
non-negative operands for the year range 0–9999). -/
def daysFromCivil (y m d : Int) : Int :=
  let y2 := if m ≤ 2 then y - 1 else y
  let era := (if 0 ≤ y2 then y2 else y2 - 399) / 400
  let yoe := y2 - era * 400
  let doy := (153 * (if 2 < m then m - 3 else m + 9) + 2) / 5 + d - 1
  let doe := yoe * 365 + yoe / 4 - yoe / 100 + doy
  era * 146097 + doe - 719468

/-- `time.Parse(time.RFC3339, s)` for a 20-character input, returning
Unix seconds: exact shape `YYYY-MM-DDThh:mm:ssZ` with Go's range checks
on month, day, hour, minute and second. -/
def parseTimestamp20 (s : String) : Option Int :=
  match s.toList with
  | [y1, y2, y3, y4, p1, m1, m2, p2, d1, d2, p3, h1, h2, p4, n1, n2, p5, e1, e2, z] =>
    if p1 = '-' ∧ p2 = '-' ∧ p3 = 'T' ∧ p4 = ':' ∧ p5 = ':' ∧ z = 'Z' then do
      let ya ← num2 y1 y2
      let yb ← num2 y3 y4
      let y := 100 * ya + yb
      let mo ← num2 m1 m2
      let d ← num2 d1 d2
      let h ← num2 h1 h2
      let mi ← num2 n1 n2
      let sec ← num2 e1 e2
      if 1 ≤ mo ∧ mo ≤ 12 ∧ 1 ≤ d ∧ d ≤ daysInMonth y mo ∧ h ≤ 23 ∧ mi ≤ 59 ∧ sec ≤ 59 then
        pure (daysFromCivil y mo d * 86400 + h * 3600 + mi * 60 + sec)
      else none
    else none
  | _ => none

/-! ## The four verification gates (`Auth` revision, operating on
`url.Values`; the earlier package-level revision differs only in
`verifyReturnTo`, embedded separately below). -/

/-- The keys of the `ok` map in `verifySignedFields`, in the (fixed)
order the model consults them.  Go iterates the map in unspecified
order, so which missing field the error names is nondeterministic there;
the success/failure outcome is order-independent. -/
def requiredFields : List String :=
  ["op_endpoint", "return_to", "response_nonce", "assoc_handle", "claimed_id", "identity"]

/-- Whether field `k` is satisfied: pre-marked `true` for
`claimed_id`/`identity` when the corresponding parameter is empty
(Go's initial map), or listed in `openid.signed`; entries that
`ok[sf] = true` adds for signature fields outside the map's initial six
keys are vacuously `true` in the final loop and are dropped here. -/
def fieldOK (v : Values) (signed : List String) (k : String) : Bool :=
  (k == "claimed_id" && Values.get v "openid.claimed_id" == "")
  || (k == "identity" && Values.get v "openid.identity" == "")
  || signed.contains k

/-- Gate 1, `verifySignedFields`: every required field must appear in
the comma-separated `openid.signed` list. -/
def verifySignedFields (v : Values) : Except String Unit :=
  let signed := splitStr ',' (Values.get v "openid.signed")
  match requiredFields.find? (fun k => !fieldOK v signed k) with
  | some k => .error (k ++ " must be signed but isn't")
  | none => .ok ()

/-- Gate 2 body, `verifySignature` after the POST: scan the provider's
line-based reply for `is_valid:true` and the namespace line. -/
def verifySignature (content : String) : Except String Unit :=
  let check := fun (target : String) =>
    (splitStr '\n' content).contains target
  if check "is_valid:true" && check "ns:http://specs.openid.net/auth/2.0" then .ok ()
  else .error "could not verify assertion"

/-- Gate 2 with the network modelled: `none` is a failed
`http.PostForm`/body read (the transport error is returned), `some body`
is the provider's reply, scanned by `verifySignature`. -/
def verifySignatureNet (resp : Option String) : Except String Unit :=
  match resp with
  | none => .error "post form error"
  | some body => verifySignature body

/-- Gate 3, `verifyReturnTo` (`Auth` revision): parse
`openid.return_to`, require scheme, host and path to equal those of the
reconstructed current URL, then require every query parameter of
`return_to` to carry the same (first) value in the live query (`Get`
reads an absent key as `""`).  `url.Parse` errors lie outside the
modelled input space, so the parse-error return is not represented. -/
def verifyReturnTo (currentURL : URL) (v : Values) : Except String Unit :=
  let returnTo := parseURL (Values.get v "openid.return_to")
  if currentURL.scheme ≠ returnTo.scheme ∨ currentURL.host ≠ returnTo.host ∨
      currentURL.path ≠ returnTo.path then
    .error "scheme, host or path doesn't match return_to URL"
  else
    let params := returnTo.query
    match params.find? (fun p => Values.get v p.1 != Values.get params p.1) with
    | some p =>
      .error ("URL query param mismatch: got " ++ Values.get v p.1 ++ ", want "
              ++ Values.get params p.1)
    | none => .ok ()

/-- Gate 3, earlier package-level revision: identical except that the
current scheme is not consulted at all — only `r.Host` and `r.URL.Path`
are compared (the package doc states scheme verification is deliberately
skipped). -/
def verifyReturnToV1 (host path : String) (v : Values) : Except String Unit :=
  let returnTo := parseURL (Values.get v "openid.return_to")
  if host ≠ returnTo.host ∨ path ≠ returnTo.path then
    .error "scheme, host or path doesn't match return_to URL"
  else
    let wantValues := returnTo.query
    match wantValues.find? (fun p => Values.get v p.1 != Values.get wantValues p.1) with
    | some p =>
      .error ("URL query param mismatch: got " ++ Values.get v p.1 ++ ", want "
              ++ Values.get wantValues p.1)
    | none => .ok ()

/-- Gate 4, `verifyNonce`: length bounds, parse the first 20 characters
as an RFC 3339 timestamp, and reject a timestamp whose minute of
validity has passed (`ts.Add(time.Minute).Before(now)`).  `now` is Unix
seconds; Go's parse error and the formatted timestamp it appends to the
staleness message are abbreviated to fixed strings. -/
def verifyNonce (v : Values) (now : Int) : Except String Unit :=
  let nonce := Values.get v "openid.response_nonce"
  if nonce.length < 20 ∨ 256 < nonce.length then .error "invalid nonce"
  else
    match parseTimestamp20 (String.mk (nonce.toList.take 20)) with
    | none => .error "cannot parse nonce timestamp"
    | some ts => if ts + 60 < now then .error "nonce too old" else .ok ()

end openid20

namespace openid20

/-! ## Redirect building (`RedirectURL`, `realm`, `New`) -/

/-- `realm` (package-level revision): parse the URL and render only its
scheme and host (`url.Parse` panics on error there; the panic lies
outside the modelled input space since the model's parse is total). -/
def realm (uri : String) : String :=
  let u := parseURL uri
  schemeHostString u.scheme u.host

/-- Hexadecimal digit for percent-encoding (uppercase, as Go). -/
def hexDigit (n : Nat) : Char :=
  if n < 10 then Char.ofNat (48 + n) else Char.ofNat (55 + n)

/-- Go `url.QueryEscape` on one character: unreserved characters kept,
space becomes `+`, anything else percent-encoded (byte-wise for ASCII;
the repository only escapes ASCII parameter values). -/
def queryEscapeChar (c : Char) : List Char :=
  if c.isAlphanum || c = '-' || c = '_' || c = '.' || c = '~' then [c]
  else if c = ' ' then ['+']
  else ['%', hexDigit (c.toNat / 16), hexDigit (c.toNat % 16)]

/-- Go `url.QueryEscape`. -/
def queryEscape (s : String) : String :=
  String.mk (s.toList.foldr (fun c acc => queryEscapeChar c ++ acc) [])

/-- Go `url.Values.Encode`: keys sorted, `key=value` pairs escaped and
joined with `&` (the values the repository encodes have distinct keys,
so sorting the pair list equals sorting the map's keys). -/
def encodeValues (v : Values) : String :=
  String.intercalate "&"
    ((v.mergeSort (fun a b => a.1 ≤ b.1)).map
      (fun p => queryEscape p.1 ++ "=" ++ queryEscape p.2))

/-- The seven query parameters both revisions of `RedirectURL` add. -/
def redirectValues (returnTo realmStr : String) : Values :=
  [("openid.ns", "http://specs.openid.net/auth/2.0"),
   ("openid.mode", "checkid_setup"),
   ("openid.return_to", returnTo),
   ("openid.realm", realmStr),
   ("openid.claimed_id", "http://specs.openid.net/auth/2.0/identifier_select"),
   ("openid.identity", "http://specs.openid.net/auth/2.0/identifier_select"),
   ("openid.ns.sreg", "http://openid.net/extensions/sreg/1.1")]

/-- Package-level `RedirectURL(endpoint, returnTo)`. -/
def RedirectURL (endpoint returnTo : String) : String :=
  let sep := if endpoint.toList.contains '?' then "&" else "?"
  endpoint ++ sep ++ encodeValues (redirectValues returnTo (realm returnTo))

/-- The `Auth` helper: endpoint, return URL and the realm precomputed by
`New`. -/
structure Auth where
  endpoint : String
  returnTo : String
  realm : String
deriving Repr

/-- `New(endpoint, returnTo)`: parse the return URL and keep only its
scheme and host as the realm (the panic on a `url.Parse` error lies
outside the modelled input space). -/
def New (endpoint returnTo : String) : Auth :=
  let u := parseURL returnTo
  { endpoint := endpoint, returnTo := returnTo,
    realm := schemeHostString u.scheme u.host }

/-- `Auth.RedirectURL`. -/
def Auth.RedirectURL (s : Auth) : String :=
  let sep := if s.endpoint.toList.contains '?' then "&" else "?"
  s.endpoint ++ sep ++ encodeValues (redirectValues s.returnTo s.realm)

/-! ## The verification pipeline -/

/-- The four gates of `Verify`, for tracing which ones executed. -/
inductive Gate
  | signedFields
  | signature
  | returnTo
  | nonce
deriving DecidableEq, Repr

/-- The order `Verify` runs the gates in. -/
def gateOrder : List Gate := [.signedFields, .signature, .returnTo, .nonce]

/-- `Auth.Verify`, instrumented with the list of gates that actually
ran, in execution order.  Inputs: the request's path and raw query
(`r.URL`), the provider's reply to the out-of-band re-verification POST
(`none` for a transport failure — reaching gate 2 is what issues the
POST), and the current time in Unix seconds.  The current URL is
reconstructed exactly as the source does: `s.realm + r.URL.String()`
re-parsed. -/
def Auth.VerifyT (s : Auth) (reqPath reqRawQuery : String) (resp : Option String)
    (now : Int) : Except String String × List Gate :=
  let currentURL := parseURL (s.realm ++ requestURLString reqPath reqRawQuery)
  let v := parseQuery reqRawQuery
  match verifySignedFields v with
  | .error e => (.error e, [.signedFields])
  | .ok _ =>
    match verifySignatureNet resp with
    | .error e => (.error e, [.signedFields, .signature])
    | .ok _ =>
      match verifyReturnTo currentURL v with
      | .error e => (.error e, [.signedFields, .signature, .returnTo])
      | .ok _ =>
        match verifyNonce v now with
        | .error e => (.error e, gateOrder)
        | .ok _ => (.ok (Values.get v "openid.claimed_id"), gateOrder)

/-- `Auth.Verify`: the result of the instrumented pipeline. -/
def Auth.Verify (s : Auth) (reqPath reqRawQuery : String) (resp : Option String)
    (now : Int) : Except String String :=
  (Auth.VerifyT s reqPath reqRawQuery resp now).1

/-- Package-level `Verify` (earlier revision): the same pipeline over
`r.Host`, `r.URL.Path` and `r.URL.Query()`, with the scheme-less
`verifyReturnToV1`. -/
def VerifyV1 (host reqPath reqRawQuery : String) (resp : Option String)
    (now : Int) : Except String String :=
  let v := parseQuery reqRawQuery
  match verifySignedFields v with
  | .error e => .error e
  | .ok _ =>
    match verifySignatureNet resp with
    | .error e => .error e
    | .ok _ =>
      match verifyReturnToV1 host reqPath v with
      | .error e => .error e
      | .ok _ =>
        match verifyNonce v now with
        | .error e => .error e
        | .ok _ => .ok (Values.get v "openid.claimed_id")

end openid20

namespace openid

/-! ## OpenID Connect ID-token flow (package `openid`)

The go-oidc `Provider.Verifier(config).Verify` call is the external
TokenVerifier collaborator: it is modelled as an oracle carried by the
`Auth` structure, mapping the `SkipExpiryCheck` flag and the raw token
to either an error or a structured ID token.  An ID token is modelled by
what the code reads from it: the outcome of decoding its claim set into
`{email, email_verified}` and its embedded nonce. -/

/-- The claim structure `Auth.verify` decodes. -/
structure OIDCClaims where
  email : String
  emailVerified : Bool
deriving DecidableEq, Repr

/-- A verified ID token as the code consumes it: `Claims` outcome and
`Nonce`. -/
structure IDToken where
  claims : Except String OIDCClaims
  nonce : String
deriving DecidableEq, Repr

/-- The external token verifier: `SkipExpiryCheck` flag and raw token to
verification outcome. -/
def TokenVerifier := Bool → String → Except String IDToken

/-- The auth module: client ID and the provider's verifier capability. -/
structure Auth where
  clientID : String
  verifier : TokenVerifier

/-- Cookie names. -/
def nonceCookie : String := "__Host-AuthNonce"

/-- Session-token cookie name. -/
def tokenCookie : String := "__Host-AuthToken"

/-- One hour in seconds (nonce cookie max-age). -/
def oneHour : Int := 60 * 60

/-- One year in seconds (session cookie max-age). -/
def oneYear : Int := 365 * 24 * 60 * 60

/-- Go `r.Cookie(name)`: the first request cookie with that name, or
failure. -/
def lookupCookie (cookies : List (String × String)) (name : String) : Option String :=
  match cookies.find? (fun c => c.1 == name) with
  | some c => some c.2
  | none => none

/-- `Auth.verify(r, token, skipExpiry)`: delegate to the external
verifier with `SkipExpiryCheck = skipExpiry`, decode the claims, reject
an unverified email, and return `(email, nonce)`. -/
def Auth.verify (s : Auth) (token : String) (skipExpiry : Bool) :
    Except String (String × String) :=
  match s.verifier skipExpiry token with
  | .error e => .error e
  | .ok idToken =>
    match idToken.claims with
    | .error e => .error ("claims: " ++ e)
    | .ok claims =>
      if !claims.emailVerified then
        .error ("email not verified: " ++ claims.email)
      else
        .ok (claims.email, idToken.nonce)

/-- Request method, as the handler distinguishes it. -/
inductive Method
  | get
  | post
deriving DecidableEq, Repr

/-- The parts of an HTTP request the callback handler reads. -/
structure Request where
  method : Method
  idTokenForm : String
  cookies : List (String × String)
deriving Repr

/-- What the handler writes back: the relay page, an `http.Error`, or a
redirect. -/
inductive HandleResult
  | page
  | httpError (msg : String)
  | redirect (location : String)
deriving DecidableEq, Repr

/-- A `Set-Cookie` action: name, value, max-age.  `setCookie` always
adds `Path=/`, `Secure`, `HttpOnly`, `SameSite=Strict`; `deleteCookie`
is `setCookie(name, "", -1)`. -/
structure SetCookie where
  name : String
  value : String
  maxAge : Int
deriving DecidableEq, Repr

/-- The handler's observable response: result plus emitted `Set-Cookie`
actions in order. -/
structure Response where
  result : HandleResult
  setCookies : List SetCookie
deriving DecidableEq, Repr

/-- `Auth.handle`, the `/auth/callback` handler.  GET serves the
fragment-relay page.  POST verifies the posted token with
`skipExpiry = false`, then requires the token's nonce to equal the nonce
cookie; only then does it delete the nonce cookie, store the raw token
as the one-year session cookie and redirect home. -/
def Auth.handle (s : Auth) (r : Request) : Response :=
  match r.method with
  | .get => { result := .page, setCookies := [] }
  | .post =>
    match Auth.verify s r.idTokenForm false with
    | .error e =>
      { result := .httpError ("Invalid ID token: " ++ e), setCookies := [] }
    | .ok en =>
      match lookupCookie r.cookies nonceCookie with
      | none => { result := .httpError "Invalid nonce", setCookies := [] }
      | some cv =>
        if en.2 ≠ cv then
          { result := .httpError "Invalid nonce", setCookies := [] }
        else
          { result := .redirect "/",
            setCookies := [{ name := nonceCookie, value := "", maxAge := -1 },
                           { name := tokenCookie, value := r.idTokenForm,
                             maxAge := oneYear }] }

/-- `Auth.User`: read the session cookie, failing when absent, else
verify it with `skipExpiry = true` and return the email, wrapping a
verification failure. -/
def Auth.User (s : Auth) (cookies : List (String × String)) : Except String String :=
  match lookupCookie cookies tokenCookie with
  | none => .error "no auth token cookie"
  | some v =>
    match Auth.verify s v true with
    | .error e => .error ("invalid ID token: " ++ e)
    | .ok en => .ok en.1

end openid

/-! ## Concrete fixtures used by witness and counterexample theorems -/

/-- A concrete token-verifier oracle: accepts `goodtoken` (verified
email) and `flaggedtoken` (unverified email), rejects everything else. -/
def okVerifier : openid.TokenVerifier := fun _ tok =>
  if tok = "goodtoken" then
    .ok { claims := .ok { email := "user@example.com", emailVerified := true },
          nonce := "nonce1" }
  else if tok = "flaggedtoken" then
    .ok { claims := .ok { email := "user@example.com", emailVerified := false },
          nonce := "nonce1" }
  else .error "bad signature"

/-- A concrete OIDC auth module over `okVerifier`. -/
def fixtureAuth : openid.Auth := { clientID := "client-1", verifier := okVerifier }

/-- A POST login callback carrying `goodtoken` and the matching nonce
cookie. -/
def fixtureRequest : openid.Request :=
  { method := .post, idTokenForm := "goodtoken",
    cookies := [(openid.nonceCookie, "nonce1")] }

/-- A concrete OpenID 2.0 helper (the example from the repository:
Steam endpoint, `https://example.com/auth` return URL). -/
def fixtureAuth20 : openid20.Auth :=
  openid20.New "https://steamcommunity.com/openid/login" "https://example.com/auth"

/-- A positive provider reply to the re-verification POST. -/
def okBody : String := "ns:http://specs.openid.net/auth/2.0\nis_valid:true"

/-- A callback query signing the four always-required fields and
carrying no `openid.claimed_id`/`openid.identity`. -/
def fixtureQuery : String :=
  "openid.mode=id_res&openid.op_endpoint=https://provider.example/op&openid.return_to=https://example.com/auth&openid.response_nonce=2020-01-01T00:00:00Zabc&openid.assoc_handle=handle1&openid.sig=sig1&openid.signed=op_endpoint,return_to,response_nonce,assoc_handle"

/-- The same callback query with `response_nonce` missing from the
signed list. -/
def fixtureQueryUnsigned : String :=
  "openid.mode=id_res&openid.op_endpoint=https://provider.example/op&openid.return_to=https://example.com/auth&openid.response_nonce=2020-01-01T00:00:00Zabc&openid.assoc_handle=handle1&openid.sig=sig1&openid.signed=op_endpoint,return_to,assoc_handle"

/-- A clock 30 seconds after the fixture nonce's timestamp
(2020-01-01T00:00:00Z = 1577836800). -/
def fixtureNow : Int := 1577836830

/-! ## Theorems -/

/-- Strings are different when one is a proper extension: the wrapped
token error never equals the missing-cookie error. -/
theorem wrap_ne_nosession (e : String) :
    ("invalid ID token: " ++ e) ≠ "no auth token cookie" := by
  intro h
  have h1 : (("invalid ID token: " ++ e).data).head? = some 'i' := rfl
  rw [h] at h1
  exact absurd h1 (by decide)

/-- The nonce-mismatch error is distinct from every wrapped
token-verification error. -/
theorem invalid_nonce_ne_token_err (e : String) :
    ("Invalid nonce" : String) ≠ "Invalid ID token: " ++ e := by
  intro h
  have h1 : ((("Invalid ID token: " ++ e).data).drop 8).head? = some 'I' := rfl
  rw [← h] at h1
  exact absurd h1 (by decide)

/-- Claim C3: whenever the external verifier accepts a token (its
signature, issuer, audience and expiry are valid) but the decoded claim
set has `email_verified = false`, `Auth.verify` fails with the
unverified-email error — so no email is returned — whatever the nonce
and the `skipExpiry` flag. -/
theorem unverified_email_rejected (s : openid.Auth) (token : String) (skipExpiry : Bool)
    (t : openid.IDToken) (c : openid.OIDCClaims)
    (hv : s.verifier skipExpiry token = .ok t)
    (hc : t.claims = .ok c) (hev : c.emailVerified = false) :
    openid.Auth.verify s token skipExpiry = .error ("email not verified: " ++ c.email) := by
  unfold openid.Auth.verify
  simp only [hv, hc, hev]
  simp

/-- Witness for C3: a concretely signed-but-unverified token is
rejected with the unverified-email error. -/
theorem unverified_email_rejected_witness :
    openid.Auth.verify fixtureAuth "flaggedtoken" false =
      .error "email not verified: user@example.com" :=
  unverified_email_rejected fixtureAuth "flaggedtoken" false
    { claims := .ok { email := "user@example.com", emailVerified := false },
      nonce := "nonce1" }
    { email := "user@example.com", emailVerified := false }
    (by decide) rfl rfl

/-- Claim C8: `Auth.User` fails with the no-session error exactly when
the session-token cookie is absent; with the cookie present it verifies
the cookie value with `skipExpiry = true`, wraps a verification failure
in the invalid-session error, and returns the verified email on
success. -/
theorem session_read (s : openid.Auth) (cookies : List (String × String)) :
    (openid.Auth.User s cookies = .error "no auth token cookie" ↔
      openid.lookupCookie cookies openid.tokenCookie = none) ∧
    (∀ val, openid.lookupCookie cookies openid.tokenCookie = some val →
      (∀ e, openid.Auth.verify s val true = .error e →
        openid.Auth.User s cookies = .error ("invalid ID token: " ++ e)) ∧
      (∀ email nonce, openid.Auth.verify s val true = .ok (email, nonce) →
        openid.Auth.User s cookies = .ok email)) := by
  constructor
  · unfold openid.Auth.User
    cases hl : openid.lookupCookie cookies openid.tokenCookie with
    | none => simp
    | some val =>
      simp only []
      cases hv : openid.Auth.verify s val true with
      | error e =>
        simp only []
        constructor
        · intro h
          exact absurd (Except.error.inj h) (wrap_ne_nosession e)
        · intro h; cases h
      | ok en => simp
  · intro val hl
    unfold openid.Auth.User
    simp only [hl]
    constructor
    · intro e hv
      simp only [hv]
    · intro email nonce hv
      simp only [hv]

/-- Witness for C8: with the fixture verifier, a present session cookie
yields the verified email and an absent one the no-session error. -/
theorem session_read_witness :
    openid.Auth.User fixtureAuth [(openid.tokenCookie, "goodtoken")] = .ok "user@example.com" ∧
    openid.Auth.User fixtureAuth [] = .error "no auth token cookie" :=
  ⟨((session_read fixtureAuth [(openid.tokenCookie, "goodtoken")]).2 "goodtoken" rfl).2
      "user@example.com" "nonce1" (by decide),
   (session_read fixtureAuth []).1.mpr rfl⟩

/-- Claim C7: in the POST login callback, the session cookie is set —
and the nonce cookie deleted — exactly when token verification with
`skipExpiry = false` succeeds and the token's nonce equals the nonce
cookie; a missing or mismatching nonce cookie yields the nonce error,
distinct from every token-verification failure, and sets no cookie. -/
theorem callback_session_cookie (s : openid.Auth) (r : openid.Request)
    (hm : r.method = .post) :
    ((∃ c ∈ (openid.Auth.handle s r).setCookies, c.name = openid.tokenCookie) ↔
      (∃ email nonce, openid.Auth.verify s r.idTokenForm false = .ok (email, nonce) ∧
        openid.lookupCookie r.cookies openid.nonceCookie = some nonce)) ∧
    (∀ email nonce, openid.Auth.verify s r.idTokenForm false = .ok (email, nonce) →
      openid.lookupCookie r.cookies openid.nonceCookie = some nonce →
      openid.Auth.handle s r =
        { result := .redirect "/",
          setCookies := [⟨openid.nonceCookie, "", -1⟩,
                         ⟨openid.tokenCookie, r.idTokenForm, openid.oneYear⟩] }) ∧
    (∀ email nonce, openid.Auth.verify s r.idTokenForm false = .ok (email, nonce) →
      openid.lookupCookie r.cookies openid.nonceCookie ≠ some nonce →
      openid.Auth.handle s r =
        { result := .httpError "Invalid nonce", setCookies := [] }) ∧
    (∀ e, openid.Auth.verify s r.idTokenForm false = .error e →
      openid.Auth.handle s r =
        { result := .httpError ("Invalid ID token: " ++ e), setCookies := [] }) ∧
    (∀ e, ("Invalid nonce" : String) ≠ "Invalid ID token: " ++ e) := by
  unfold openid.Auth.handle
  rw [hm]
  refine ⟨?_, ?_, ?_, ?_, fun e => invalid_nonce_ne_token_err e⟩
  · cases hv : openid.Auth.verify s r.idTokenForm false with
    | error e => simp
    | ok en =>
      obtain ⟨email, nonce⟩ := en
      simp only []
      cases hl : openid.lookupCookie r.cookies openid.nonceCookie with
      | none => simp
      | some cv =>
        simp only []
        by_cases hne : nonce = cv
        · rw [if_neg (fun hc => hc hne)]
          constructor
          · intro _
            exact ⟨email, cv, by rw [hne], rfl⟩
          · intro _
            exact ⟨⟨openid.tokenCookie, r.idTokenForm, openid.oneYear⟩, by simp, rfl⟩
        · rw [if_pos hne]
          constructor
          · rintro ⟨c, hc, _⟩
            simp at hc
          · rintro ⟨e', n', hv', hl'⟩
            have h2 : nonce = n' := congrArg Prod.snd (Except.ok.inj hv')
            rw [← h2] at hl'
            exact absurd (Option.some.inj hl').symm hne
  · intro email nonce hv hl
    simp only [hv, hl]
    rw [if_neg (fun hc => hc rfl)]
  · intro email nonce hv hl
    simp only [hv]
    cases hlc : openid.lookupCookie r.cookies openid.nonceCookie with
    | none => simp
    | some cv =>
      simp only []
      rw [if_pos (show nonce ≠ cv from fun he => hl (by rw [hlc, he]))]
  · intro e hv
    simp only [hv]

/-- Witness for C7: the fixture callback (valid token, matching nonce
cookie) deletes the nonce cookie and sets the one-year session cookie. -/
theorem callback_session_cookie_witness :
    openid.Auth.handle fixtureAuth fixtureRequest =
      { result := .redirect "/",
        setCookies := [⟨openid.nonceCookie, "", -1⟩,
                       ⟨openid.tokenCookie, "goodtoken", openid.oneYear⟩] } :=
  (callback_session_cookie fixtureAuth fixtureRequest rfl).2.1 "user@example.com" "nonce1"
    (by decide) rfl

/-- String append is associative (via the underlying character lists). -/
theorem str_append_assoc (a b c : String) : a ++ b ++ c = a ++ (b ++ c) :=
  String.ext (List.append_assoc a.data b.data c.data)

/-- Claim C4: the nonce gate enforces the length bounds, parses the
first 20 characters as a fixed-format timestamp — failing on a malformed
one — and otherwise fails exactly when the timestamp is more than 60
seconds before `now` (so 61 seconds old fails and 59 seconds old
passes, as the witness instantiates). -/
theorem nonce_freshness_gate (v : Values) (now : Int) :
    ((Values.get v "openid.response_nonce").length < 20 ∨
        256 < (Values.get v "openid.response_nonce").length →
      openid20.verifyNonce v now = .error "invalid nonce") ∧
    (20 ≤ (Values.get v "openid.response_nonce").length →
      (Values.get v "openid.response_nonce").length ≤ 256 →
      openid20.parseTimestamp20
          (String.mk ((Values.get v "openid.response_nonce").toList.take 20)) = none →
      openid20.verifyNonce v now = .error "cannot parse nonce timestamp") ∧
    (∀ ts, 20 ≤ (Values.get v "openid.response_nonce").length →
      (Values.get v "openid.response_nonce").length ≤ 256 →
      openid20.parseTimestamp20
          (String.mk ((Values.get v "openid.response_nonce").toList.take 20)) = some ts →
      openid20.verifyNonce v now =
        if ts + 60 < now then .error "nonce too old" else .ok ()) := by
  refine ⟨?_, ?_, ?_⟩
  · intro h
    unfold openid20.verifyNonce
    rw [if_pos h]
  · intro h1 h2 hp
    unfold openid20.verifyNonce
    rw [if_neg (by omega)]
    simp only [hp]
  · intro ts h1 h2 hp
    unfold openid20.verifyNonce
    rw [if_neg (by omega)]
    simp only [hp]

/-- Witness for C4: the 60-second boundary — a nonce timestamped
2020-01-01T00:00:00Z fails at 61 seconds past and passes at 59. -/
theorem nonce_freshness_gate_witness :
    openid20.verifyNonce [("openid.response_nonce", "2020-01-01T00:00:00Zabc")] 1577836861 =
      .error "nonce too old" ∧
    openid20.verifyNonce [("openid.response_nonce", "2020-01-01T00:00:00Zabc")] 1577836859 =
      .ok () := by
  have h1 := (nonce_freshness_gate [("openid.response_nonce", "2020-01-01T00:00:00Zabc")]
    1577836861).2.2 1577836800 (by decide) (by decide) (by decide)
  have h2 := (nonce_freshness_gate [("openid.response_nonce", "2020-01-01T00:00:00Zabc")]
    1577836859).2.2 1577836800 (by decide) (by decide) (by decide)
  rw [if_pos (by decide)] at h1
  rw [if_neg (by decide)] at h2
  exact ⟨h1, h2⟩

/-- The signed-fields gate succeeds exactly when every required field
satisfies `fieldOK`. -/
theorem verifySignedFields_ok_iff (v : Values) :
    openid20.verifySignedFields v = .ok () ↔
      ∀ k ∈ openid20.requiredFields,
        openid20.fieldOK v (splitStr ',' (Values.get v "openid.signed")) k = true := by
  unfold openid20.verifySignedFields
  simp only []
  split
  next k heq =>
    constructor
    · intro hc; cases hc
    · intro hall
      have hmem := List.find?_some heq
      have hk := hall k (List.mem_of_find?_eq_some heq)
      rw [hk] at hmem
      simp at hmem
  next heq =>
    rw [List.find?_eq_none] at heq
    constructor
    · intro _ k hk
      simpa using heq k hk
    · intro _; rfl

/-- A signed-fields failure names a required field that is not
satisfied. -/
theorem verifySignedFields_error_names (v : Values) (e : String)
    (h : openid20.verifySignedFields v = .error e) :
    ∃ k ∈ openid20.requiredFields,
      openid20.fieldOK v (splitStr ',' (Values.get v "openid.signed")) k = false ∧
      e = k ++ " must be signed but isn't" := by
  unfold openid20.verifySignedFields at h
  simp only [] at h
  split at h
  next k heq =>
    exact ⟨k, List.mem_of_find?_eq_some heq, by simpa using List.find?_some heq,
      (Except.error.inj h).symm⟩
  next heq => cases h

/-- Claim C2: the signed-field check succeeds exactly when
`op_endpoint`, `return_to`, `response_nonce` and `assoc_handle` are all
listed in the comma-separated `openid.signed` value, and `claimed_id`
(resp. `identity`) is listed whenever the `openid.claimed_id`
(resp. `openid.identity`) parameter is non-empty; any failure carries an
error naming a missing required field. -/
theorem signed_fields_complete (v : Values) :
    (openid20.verifySignedFields v = .ok () ↔
      ("op_endpoint" ∈ splitStr ',' (Values.get v "openid.signed") ∧
       "return_to" ∈ splitStr ',' (Values.get v "openid.signed") ∧
       "response_nonce" ∈ splitStr ',' (Values.get v "openid.signed") ∧
       "assoc_handle" ∈ splitStr ',' (Values.get v "openid.signed") ∧
       (Values.get v "openid.claimed_id" ≠ "" →
         "claimed_id" ∈ splitStr ',' (Values.get v "openid.signed")) ∧
       (Values.get v "openid.identity" ≠ "" →
         "identity" ∈ splitStr ',' (Values.get v "openid.signed")))) ∧
    (∀ e, openid20.verifySignedFields v = .error e →
      ∃ k ∈ openid20.requiredFields,
        openid20.fieldOK v (splitStr ',' (Values.get v "openid.signed")) k = false ∧
        e = k ++ " must be signed but isn't") := by
  refine ⟨?_, verifySignedFields_error_names v⟩
  rw [verifySignedFields_ok_iff]
  simp [openid20.requiredFields, openid20.fieldOK]
  tauto

/-- Witness for C2: the four always-required fields signed suffice when
no identity parameters are present, and omitting `response_nonce` from
the signed list yields the error naming a missing field. -/
theorem signed_fields_complete_witness :
    openid20.verifySignedFields
        [("openid.signed", "op_endpoint,return_to,response_nonce,assoc_handle")] = .ok () ∧
    ∃ k ∈ openid20.requiredFields,
      openid20.fieldOK [("openid.signed", "op_endpoint,return_to,assoc_handle")]
        (splitStr ','
          (Values.get [("openid.signed", "op_endpoint,return_to,assoc_handle")]
            "openid.signed")) k = false ∧
      "response_nonce must be signed but isn't" = k ++ " must be signed but isn't" :=
  ⟨(signed_fields_complete
      [("openid.signed", "op_endpoint,return_to,response_nonce,assoc_handle")]).1.mpr
        (by decide),
   (signed_fields_complete [("openid.signed", "op_endpoint,return_to,assoc_handle")]).2
      "response_nonce must be signed but isn't" (by decide)⟩

/-- Claim C5: the instrumented pipeline only ever executes a prefix of
the four gates in their fixed order; each gate's failure terminates
verification with that gate's error and the recorded gate list; in
particular a signed-field failure yields the gate-1 error with only
gate 1 executed, for every possible provider response — the
re-verification POST (which reaching gate 2 would issue) never
happens.  The package-level `Verify` behaves the same way. -/
theorem gate_ordering :
    (∀ (s : openid20.Auth) reqPath q resp now,
      ∃ n, (openid20.Auth.VerifyT s reqPath q resp now).2 = openid20.gateOrder.take n) ∧
    (∀ (s : openid20.Auth) reqPath q now e,
      openid20.verifySignedFields (parseQuery q) = .error e →
      ∀ resp, openid20.Auth.VerifyT s reqPath q resp now =
        (.error e, [.signedFields])) ∧
    (∀ (s : openid20.Auth) reqPath q resp now e,
      openid20.verifySignedFields (parseQuery q) = .ok () →
      openid20.verifySignatureNet resp = .error e →
      openid20.Auth.VerifyT s reqPath q resp now =
        (.error e, [.signedFields, .signature])) ∧
    (∀ (s : openid20.Auth) reqPath q resp now e,
      openid20.verifySignedFields (parseQuery q) = .ok () →
      openid20.verifySignatureNet resp = .ok () →
      openid20.verifyReturnTo (parseURL (s.realm ++ requestURLString reqPath q))
          (parseQuery q) = .error e →
      openid20.Auth.VerifyT s reqPath q resp now =
        (.error e, [.signedFields, .signature, .returnTo])) ∧
    (∀ (s : openid20.Auth) reqPath q resp now e,
      openid20.verifySignedFields (parseQuery q) = .ok () →
      openid20.verifySignatureNet resp = .ok () →
      openid20.verifyReturnTo (parseURL (s.realm ++ requestURLString reqPath q))
          (parseQuery q) = .ok () →
      openid20.verifyNonce (parseQuery q) now = .error e →
      openid20.Auth.VerifyT s reqPath q resp now = (.error e, openid20.gateOrder)) ∧
    (∀ reqPath q now e,
      openid20.verifySignedFields (parseQuery q) = .error e →
      ∀ host resp, openid20.VerifyV1 host reqPath q resp now = .error e) := by
  refine ⟨?_, ?_, ?_, ?_, ?_, ?_⟩
  · intro s reqPath q resp now
    unfold openid20.Auth.VerifyT
    simp only []
    split
    · exact ⟨1, rfl⟩
    · split
      · exact ⟨2, rfl⟩
      · split
        · exact ⟨3, rfl⟩
        · split
          · exact ⟨4, rfl⟩
          · exact ⟨4, rfl⟩
  · intro s reqPath q now e h resp
    unfold openid20.Auth.VerifyT
    simp only [h]
  · intro s reqPath q resp now e h1 h2
    unfold openid20.Auth.VerifyT
    simp only [h1, h2]
  · intro s reqPath q resp now e h1 h2 h3
    unfold openid20.Auth.VerifyT
    simp only [h1, h2, h3]
  · intro s reqPath q resp now e h1 h2 h3 h4
    unfold openid20.Auth.VerifyT
    simp only [h1, h2, h3, h4]
  · intro reqPath q now e h host resp
    unfold openid20.VerifyV1
    simp only [h]

/-- Witness for C5: a callback whose signed list omits
`response_nonce` fails at gate 1 with only gate 1 executed, even though
the injected provider response would re-verify positively. -/
theorem gate_ordering_witness :
    openid20.Auth.VerifyT fixtureAuth20 "/auth" fixtureQueryUnsigned (some okBody) fixtureNow =
      (.error "response_nonce must be signed but isn't", [.signedFields]) :=
  gate_ordering.2.1 fixtureAuth20 "/auth" fixtureQueryUnsigned fixtureNow
    "response_nonce must be signed but isn't" (by decide) (some okBody)

/-- Claim C10: when neither `openid.claimed_id` nor `openid.identity`
is present, signing the four always-required fields satisfies gate 1;
and a complete callback without those parameters passes all four gates
and returns the empty string as the claimed identifier, in both
revisions of `Verify`. -/
theorem claimed_id_waived :
    (∀ v : Values, Values.get v "openid.claimed_id" = "" →
      Values.get v "openid.identity" = "" →
      "op_endpoint" ∈ splitStr ',' (Values.get v "openid.signed") →
      "return_to" ∈ splitStr ',' (Values.get v "openid.signed") →
      "response_nonce" ∈ splitStr ',' (Values.get v "openid.signed") →
      "assoc_handle" ∈ splitStr ',' (Values.get v "openid.signed") →
      openid20.verifySignedFields v = .ok ()) ∧
    Values.get (parseQuery fixtureQuery) "openid.claimed_id" = "" ∧
    openid20.Auth.Verify fixtureAuth20 "/auth" fixtureQuery (some okBody) fixtureNow =
      .ok "" ∧
    openid20.VerifyV1 "example.com" "/auth" fixtureQuery (some okBody) fixtureNow =
      .ok "" := by
  refine ⟨?_, by decide, by decide, by decide⟩
  intro v h1 h2 m1 m2 m3 m4
  rw [verifySignedFields_ok_iff]
  intro k hk
  simp [openid20.requiredFields] at hk
  rcases hk with rfl | rfl | rfl | rfl | rfl | rfl <;>
    simp [openid20.fieldOK, h1, h2, m1, m2, m3, m4]

/-- Witness for C10: a concrete parameter set without identity
parameters passes the signed-field gate. -/
theorem claimed_id_waived_witness :
    openid20.verifySignedFields
        [("openid.mode", "id_res"),
         ("openid.signed", "op_endpoint,return_to,response_nonce,assoc_handle")] = .ok () :=
  claimed_id_waived.1
    [("openid.mode", "id_res"),
     ("openid.signed", "op_endpoint,return_to,response_nonce,assoc_handle")]
    rfl rfl (by decide) (by decide) (by decide) (by decide)

/-- Counterexample for C1 as stated: the package-level revision's
return-URL gate succeeds on a callback whose asserted `return_to` URL
has scheme `http`, although the path cited deliberately never consults
the scheme the callback was actually served over (here `https`) — so a
scheme difference alone does not fail verification in that revision. -/
theorem returnTo_scheme_not_checked_v1 :
    openid20.verifyReturnToV1 "example.com" "/auth"
        [("openid.return_to", "http://example.com/auth")] = .ok () ∧
    (parseURL "http://example.com/auth").scheme = "http" ∧
    ("http" : String) ≠ "https" := by decide

/-- Claim C1 (amended): the `Auth`-revision gate compares scheme, host
and path of the reconstructed current URL against `return_to` and fails
with the mismatch error when any of the three differs; the
package-level revision compares only host and path — its deliberate
simplification — failing when either of those differs. -/
theorem returnTo_binding_both_revisions :
    (∀ (currentURL : URL) (v : Values),
      (currentURL.scheme ≠ (parseURL (Values.get v "openid.return_to")).scheme ∨
       currentURL.host ≠ (parseURL (Values.get v "openid.return_to")).host ∨
       currentURL.path ≠ (parseURL (Values.get v "openid.return_to")).path) →
      openid20.verifyReturnTo currentURL v =
        .error "scheme, host or path doesn't match return_to URL") ∧
    (∀ (host reqPath : String) (v : Values),
      (host ≠ (parseURL (Values.get v "openid.return_to")).host ∨
       reqPath ≠ (parseURL (Values.get v "openid.return_to")).path) →
      openid20.verifyReturnToV1 host reqPath v =
        .error "scheme, host or path doesn't match return_to URL") := by
  constructor
  · intro currentURL v h
    unfold openid20.verifyReturnTo
    simp only []
    rw [if_pos h]
  · intro host reqPath v h
    unfold openid20.verifyReturnToV1
    simp only []
    rw [if_pos h]

/-- Witness for C1 (amended): a scheme difference fails the
`Auth`-revision gate, and a path difference fails the package-level
one. -/
theorem returnTo_binding_both_revisions_witness :
    openid20.verifyReturnTo ⟨"https", "example.com", "/auth", ""⟩
        [("openid.return_to", "http://example.com/auth")] =
      .error "scheme, host or path doesn't match return_to URL" ∧
    openid20.verifyReturnToV1 "example.com" "/other"
        [("openid.return_to", "http://example.com/auth")] =
      .error "scheme, host or path doesn't match return_to URL" :=
  ⟨returnTo_binding_both_revisions.1 ⟨"https", "example.com", "/auth", ""⟩
      [("openid.return_to", "http://example.com/auth")] (by decide),
   returnTo_binding_both_revisions.2 "example.com" "/other"
      [("openid.return_to", "http://example.com/auth")] (by decide)⟩

/-- Counterexample for C6 as stated: a `return_to` query parameter with
an empty value (`?x=`) counts as present in `return_to` yet absent from
the live request, and verification nevertheless succeeds — `Get` reads
the missing live parameter as the empty string, which compares equal. -/
theorem empty_param_not_required :
    openid20.verifyReturnTo ⟨"https", "example.com", "/cb", ""⟩
        [("openid.return_to", "https://example.com/cb?x=")] = .ok () ∧
    ("x", "") ∈ (parseURL "https://example.com/cb?x=").query ∧
    (∀ p ∈ ([("openid.return_to", "https://example.com/cb?x=")] : Values), p.1 ≠ "x") := by
  decide

/-- Claim C6 (amended): once scheme, host and path agree, every query
parameter of `return_to` must carry in the live request a first value
equal to its own first value, an absent parameter reading as the empty
string; any key whose values differ in that sense fails verification
with the query-param mismatch error. -/
theorem return_to_params_checked (currentURL : URL) (v : Values)
    (hs : currentURL.scheme = (parseURL (Values.get v "openid.return_to")).scheme)
    (hh : currentURL.host = (parseURL (Values.get v "openid.return_to")).host)
    (hp : currentURL.path = (parseURL (Values.get v "openid.return_to")).path)
    (k : String)
    (hk : k ∈ ((parseURL (Values.get v "openid.return_to")).query).map Prod.fst)
    (hne : Values.get v k ≠
      Values.get ((parseURL (Values.get v "openid.return_to")).query) k) :
    ∃ got want, openid20.verifyReturnTo currentURL v =
      .error ("URL query param mismatch: got " ++ got ++ ", want " ++ want) := by
  unfold openid20.verifyReturnTo
  simp only []
  rw [if_neg (by push_neg; exact ⟨hs, hh, hp⟩)]
  have hex : ∃ x ∈ (parseURL (Values.get v "openid.return_to")).query,
      (Values.get v x.1 !=
        Values.get ((parseURL (Values.get v "openid.return_to")).query) x.1) = true := by
    obtain ⟨q, hmem, hfst⟩ := List.mem_map.mp hk
    refine ⟨q, hmem, ?_⟩
    rw [hfst]
    simpa [bne_iff_ne] using hne
  have hsome : ((parseURL (Values.get v "openid.return_to")).query.find?
      (fun p => Values.get v p.1 !=
        Values.get ((parseURL (Values.get v "openid.return_to")).query) p.1)).isSome := by
    rw [List.find?_isSome]
    exact hex
  obtain ⟨p, hp2⟩ := Option.isSome_iff_exists.mp hsome
  simp only [hp2]
  exact ⟨Values.get v p.1,
    Values.get ((parseURL (Values.get v "openid.return_to")).query) p.1, rfl⟩

/-- Witness for C6 (amended): a live request carrying `a=1` against a
`return_to` asserting `a=2` fails with the query-param mismatch
error. -/
theorem return_to_params_checked_witness :
    ∃ got want,
      openid20.verifyReturnTo ⟨"https", "example.com", "/cb", "a=1"⟩
          [("openid.return_to", "https://example.com/cb?a=2"), ("a", "1")] =
        .error ("URL query param mismatch: got " ++ got ++ ", want " ++ want) :=
  return_to_params_checked ⟨"https", "example.com", "/cb", "a=1"⟩
    [("openid.return_to", "https://example.com/cb?a=2"), ("a", "1")]
    (by decide) (by decide) (by decide) "a" (by decide) (by decide)

/-- Claim C9: for a return URL parsing with a scheme and a host, the
`openid.realm` parameter among the redirect parameters — computed by
`realm`/`New` as the return URL with path and query stripped — equals
`scheme://host` of the return URL, and the `Auth` helper's stored realm
agrees with the package-level `realm` function. -/
theorem realm_round_trip (endpoint returnTo : String)
    (hs : (parseURL returnTo).scheme ≠ "") (hh : (parseURL returnTo).host ≠ "") :
    Values.get (openid20.redirectValues returnTo (openid20.realm returnTo)) "openid.realm" =
      (parseURL returnTo).scheme ++ "://" ++ (parseURL returnTo).host ∧
    (openid20.New endpoint returnTo).realm = openid20.realm returnTo := by
  constructor
  · have hget : Values.get (openid20.redirectValues returnTo (openid20.realm returnTo))
        "openid.realm" = openid20.realm returnTo := by
      simp [openid20.redirectValues, Values.get, List.find?]
    rw [hget]
    unfold openid20.realm schemeHostString
    simp only []
    rw [if_neg hs, if_neg hh]
    calc ((parseURL returnTo).scheme ++ ":") ++ ("//" ++ (parseURL returnTo).host)
        = (parseURL returnTo).scheme ++ (":" ++ ("//" ++ (parseURL returnTo).host)) :=
          str_append_assoc _ _ _
      _ = (parseURL returnTo).scheme ++ ((":" ++ "//") ++ (parseURL returnTo).host) := by
          rw [str_append_assoc]
      _ = (parseURL returnTo).scheme ++ ("://" ++ (parseURL returnTo).host) := rfl
      _ = (parseURL returnTo).scheme ++ "://" ++ (parseURL returnTo).host :=
          (str_append_assoc _ _ _).symm
  · rfl

/-- Witness for C9: the example return URL yields realm
`https://example.com`. -/
theorem realm_round_trip_witness :
    Values.get (openid20.redirectValues "https://example.com/auth"
        (openid20.realm "https://example.com/auth")) "openid.realm" = "https://example.com" ∧
    (openid20.New "https://steamcommunity.com/openid/login" "https://example.com/auth").realm =
      openid20.realm "https://example.com/auth" := by
  have h := realm_round_trip "https://steamcommunity.com/openid/login"
    "https://example.com/auth" (by decide) (by decide)
  exact ⟨by rw [h.1]; decide, h.2⟩
